import Mathlib

/-!
Shallow embedding of the bizbuysell-automation repository (Python) in Lean 4,
with theorems settling the frozen claims about its specification.

Conventions used throughout:
* Python `None`-able strings are `Option String`.
* A Python exception in a modelled code path is an explicit error value
  (`Exc`, or `none` for "the exception propagates out of the function").
* External effects (Selenium waits, HTTP downloads, boto3 calls) are either
  oracle parameters (functions supplied to the model) or recorded events in a
  trace list, so the control flow of the repository's own code stays explicit.
-/

namespace BizBuySell

/-! ## `BizBuySellAutomator.wait_and_retry` (src/bizbuysell.py, lines 150-180)

The Python loop is

```
max_tries = int(os.environ.get("MAX_TRIES", 3))
for i in range(max_tries):
    try:
        return callback(WebDriverWait(self.driver, timeout))
    except TimeoutException as e:
        if i == int(os.environ.get("MAX_TRIES", max_tries)) - 1:
            raise e
```

A callback invocation either returns a value or raises `TimeoutException`;
`callback i : Option α` is the outcome of the `(i+1)`-st invocation
(`some v` = returned `v`, `none` = raised `TimeoutException`).  The
environment is read once and unchanged during the loop, so both reads of
`MAX_TRIES` yield the same number `max_tries`.
-/

/-- Possible outcomes of the `wait_and_retry` loop: a returned callback value,
a re-raised `TimeoutException` on the last attempt, or the `for` loop running
out of iterations without a `return` (Python then returns `None`; only
possible when `max_tries = 0`). -/
inductive RetryResult (α : Type) where
  | value (a : α)
  | timeoutRaised
  | fellThrough
  deriving DecidableEq, Repr

/-- The loop body of `wait_and_retry`, iterating `i` upward while `fuel`
counts the remaining iterations of `range(max_tries)` (so `i + fuel =
max_tries` at every call from `wait_and_retry`). -/
def wait_and_retry_aux (callback : Nat → Option α) (max_tries : Nat) :
    Nat → Nat → RetryResult α
  | _, 0 => RetryResult.fellThrough
  | i, fuel + 1 =>
    match callback i with
    | some v => RetryResult.value v
    | none =>
      if i = max_tries - 1 then RetryResult.timeoutRaised
      else wait_and_retry_aux callback max_tries (i + 1) fuel

/-- `BizBuySellAutomator.wait_and_retry`, with the callback outcomes supplied
as `callback` and `MAX_TRIES` as `max_tries`. -/
def wait_and_retry (callback : Nat → Option α) (max_tries : Nat) : RetryResult α :=
  wait_and_retry_aux callback max_tries 0 max_tries

/-- Number of times the loop body of `wait_and_retry` invokes `callback`,
mirroring the control flow of `wait_and_retry_aux`. -/
def wait_and_retry_calls_aux (callback : Nat → Option α) (max_tries : Nat) :
    Nat → Nat → Nat
  | _, 0 => 0
  | i, fuel + 1 =>
    match callback i with
    | some _ => 1
    | none =>
      if i = max_tries - 1 then 1
      else 1 + wait_and_retry_calls_aux callback max_tries (i + 1) fuel

/-- Number of callback invocations performed by `wait_and_retry`. -/
def wait_and_retry_calls (callback : Nat → Option α) (max_tries : Nat) : Nat :=
  wait_and_retry_calls_aux callback max_tries 0 max_tries

theorem wait_and_retry_calls_aux_le (callback : Nat → Option α)
    (max_tries : Nat) : ∀ fuel i,
    wait_and_retry_calls_aux callback max_tries i fuel ≤ fuel := by
  intro fuel
  induction fuel with
  | zero => intro i; simp [wait_and_retry_calls_aux]
  | succ n ih =>
    intro i
    cases hcb : callback i with
    | some v => simp only [wait_and_retry_calls_aux, hcb]; omega
    | none =>
      by_cases h : i = max_tries - 1
      · subst h
        simp [wait_and_retry_calls_aux, hcb]
      · simp only [wait_and_retry_calls_aux, hcb, h, if_false]
        have := ih (i + 1)
        omega

theorem wait_and_retry_aux_timeout_iff (callback : Nat → Option α)
    (max_tries : Nat) : ∀ fuel i, 0 < fuel → i + fuel = max_tries →
    (wait_and_retry_aux callback max_tries i fuel = RetryResult.timeoutRaised ↔
      ∀ j, i ≤ j → j < max_tries → callback j = none) := by
  intro fuel
  induction fuel with
  | zero => intro i h; omega
  | succ n ih =>
    intro i _ hsum
    cases hcb : callback i with
    | some v =>
      constructor
      · intro h
        simp [wait_and_retry_aux, hcb] at h
      · intro h
        have hx := h i (Nat.le_refl i) (by omega)
        rw [hcb] at hx
        simp at hx
    | none =>
      by_cases hlast : i = max_tries - 1
      · subst hlast
        constructor
        · intro _ j hij hjm
          have hj : j = max_tries - 1 := by omega
          rw [hj]; exact hcb
        · intro _
          simp [wait_and_retry_aux, hcb]
      · have hn : 0 < n := by omega
        have hrec := ih (i + 1) hn (by omega)
        constructor
        · intro h j hij hjm
          rcases Nat.eq_or_lt_of_le hij with rfl | hlt
          · exact hcb
          · have h' : wait_and_retry_aux callback max_tries (i + 1) n =
                RetryResult.timeoutRaised := by
              simpa [wait_and_retry_aux, hcb, hlast] using h
            exact (hrec.mp h') j hlt hjm
        · intro h
          have h' : wait_and_retry_aux callback max_tries (i + 1) n =
              RetryResult.timeoutRaised :=
            hrec.mpr (fun j hij hjm => h j (by omega) hjm)
          simpa [wait_and_retry_aux, hcb, hlast] using h'

theorem wait_and_retry_aux_first_success (callback : Nat → Option α)
    (max_tries : Nat) : ∀ fuel i k v, i + fuel = max_tries →
    i ≤ k → k < max_tries → callback k = some v →
    (∀ j, i ≤ j → j < k → callback j = none) →
    wait_and_retry_aux callback max_tries i fuel = RetryResult.value v ∧
      wait_and_retry_calls_aux callback max_tries i fuel = k + 1 - i := by
  intro fuel
  induction fuel with
  | zero => intro i k v hsum hik hkm; omega
  | succ n ih =>
    intro i k v hsum hik hkm hck hprev
    rcases Nat.eq_or_lt_of_le hik with rfl | hlt
    · constructor
      · simp [wait_and_retry_aux, hck]
      · simp [wait_and_retry_calls_aux, hck]
    · have hci : callback i = none := hprev i (Nat.le_refl i) hlt
      have hlast : i ≠ max_tries - 1 := by omega
      have ihspec := ih (i + 1) k v (by omega) (by omega) hkm hck
        (fun j hj1 hj2 => hprev j (by omega) hj2)
      constructor
      · simp only [wait_and_retry_aux, hci, hlast, if_false]
        exact ihspec.1
      · simp only [wait_and_retry_calls_aux, hci, hlast, if_false]
        rw [ihspec.2]
        omega

/-- C1: for every positive `MAX_TRIES` value `max_tries`, `wait_and_retry`
invokes its waiting callback at most `max_tries` times; it returns the value
of the first callback invocation that does not raise `TimeoutException`
(making exactly that many attempts and no further ones); and it raises
`TimeoutException` if and only if all `max_tries` invocations raise
`TimeoutException`. -/
theorem wait_and_retry_spec (callback : Nat → Option α) (max_tries : Nat)
    (hpos : 0 < max_tries) :
    wait_and_retry_calls callback max_tries ≤ max_tries ∧
    (∀ k v, k < max_tries → callback k = some v →
      (∀ j, j < k → callback j = none) →
      wait_and_retry callback max_tries = RetryResult.value v ∧
        wait_and_retry_calls callback max_tries = k + 1) ∧
    (wait_and_retry callback max_tries = RetryResult.timeoutRaised ↔
      ∀ i, i < max_tries → callback i = none) := by
  refine ⟨wait_and_retry_calls_aux_le callback max_tries max_tries 0, ?_, ?_⟩
  · intro k v hkm hck hprev
    have h := wait_and_retry_aux_first_success callback max_tries max_tries 0 k v
      (by omega) (Nat.zero_le k) hkm hck (fun j _ hj2 => hprev j hj2)
    exact ⟨h.1, by rw [wait_and_retry_calls, h.2]; omega⟩
  · have h := wait_and_retry_aux_timeout_iff callback max_tries max_tries 0 hpos
      (by omega)
    rw [wait_and_retry, h]
    constructor
    · intro hall i him; exact hall i (Nat.zero_le i) him
    · intro hall j _ hjm; exact hall j hjm

/-- Concrete instantiation of `wait_and_retry_spec`: with `MAX_TRIES = 3` and
a callback that times out once and then succeeds with value `42`, the loop
returns `42` after exactly two attempts. -/
theorem wait_and_retry_spec_witness :
    wait_and_retry (fun i => if i = 1 then some 42 else none) 3 =
        RetryResult.value 42 ∧
      wait_and_retry_calls (fun i => if i = 1 then some 42 else none) 3 = 2 :=
  (wait_and_retry_spec (fun i => if i = 1 then some 42 else none) 3
    (by decide)).2.1 1 42 (by decide) (by decide) (by decide)

/-! ## `config.get_settings` (src/config.py, lines 27-79)

The environment and the Lambda event are modelled as partial maps
`String → Option String` (a key absent from `os.environ` / the event dict is
`none`).  `int(...)` parsing is modelled with `String.toInt?` (`none` models
`int` raising `ValueError` on a malformed value); `os.path.dirname(__file__)`
is the parameter `dirname_file`; `os.path.join` on POSIX with relative second
argument inserts a single slash. -/

/-- Python truthiness of an optional string value, as used by
`if not event.get(x, None)`: `None` and `""` are falsy, every other string is
truthy. -/
def pyTruthy : Option String → Bool
  | none => false
  | some s => !(s == "")

/-- `int(s)`, modelled as integer parsing that can fail. -/
def pyIntParse (s : String) : Option Int := s.toInt?

/-- `os.path.join(a, b)` on POSIX for a relative `b`. -/
def pyPathJoin (a b : String) : String := a ++ "/" ++ b

/-- The settings dictionary built by `config.get_settings`. -/
structure Settings where
  MODE : Option String
  SINGLE_USER_USERNAME : Option String
  SINGLE_USER_PASSWORD : Option String
  SINGLE_USER_CSV : Option String
  MULTI_USER_CSV : Option String
  AWS_S3_REGION : Option String
  AWS_S3_BUCKET : Option String
  AWS_LAMBDA_ARN : Option String
  AWS_LAMBDA_ECR_IMAGE_URI : Option String
  FILE_SOURCE : Option String
  WEBDRIVER_TIMEOUT_SECONDS : Option Int
  WEBDRIVER_UPLOAD_TIMEOUT_SECONDS : Option Int
  VERBOSE : Bool
  PRODUCTION : Bool
  TEMP_FOLDER : String
  CHROME_PATH : String
  CHROME_DRIVER_PATH : String
  deriving DecidableEq, Repr

/-- The per-key rule of the string-valued settings comprehension:
`os.environ.get(x, None) if not event.get(x, None) else event.get(x, None)`. -/
def fromEventOrEnv (env event : String → Option String) (key : String) :
    Option String :=
  if pyTruthy (event key) then event key else env key

/-- `config.get_settings(event)`, with the process environment `env` and
`os.path.dirname(__file__)` passed explicitly. -/
def get_settings (env event : String → Option String) (dirname_file : String) :
    Settings :=
  let production := (env "PRODUCTION").getD "0" == "1"
  { MODE := fromEventOrEnv env event "MODE"
    SINGLE_USER_USERNAME := fromEventOrEnv env event "SINGLE_USER_USERNAME"
    SINGLE_USER_PASSWORD := fromEventOrEnv env event "SINGLE_USER_PASSWORD"
    SINGLE_USER_CSV := fromEventOrEnv env event "SINGLE_USER_CSV"
    MULTI_USER_CSV := fromEventOrEnv env event "MULTI_USER_CSV"
    AWS_S3_REGION := fromEventOrEnv env event "AWS_S3_REGION"
    AWS_S3_BUCKET := fromEventOrEnv env event "AWS_S3_BUCKET"
    AWS_LAMBDA_ARN := fromEventOrEnv env event "AWS_LAMBDA_ARN"
    AWS_LAMBDA_ECR_IMAGE_URI := fromEventOrEnv env event "AWS_LAMBDA_ECR_IMAGE_URI"
    FILE_SOURCE := fromEventOrEnv env event "FILE_SOURCE"
    WEBDRIVER_TIMEOUT_SECONDS :=
      pyIntParse ((env "WEBDRIVER_TIMEOUT_SECONDS").getD "15")
    WEBDRIVER_UPLOAD_TIMEOUT_SECONDS :=
      pyIntParse ((env "WEBDRIVER_UPLOAD_TIMEOUT_SECONDS").getD "30")
    VERBOSE := (env "VERBOSE").getD "0" == "1"
    PRODUCTION := production
    TEMP_FOLDER := if production then "/tmp" else dirname_file
    CHROME_PATH :=
      if production then "/opt/chrome/chrome"
      else pyPathJoin (pyPathJoin dirname_file "chrome-dev") "chrome.exe"
    CHROME_DRIVER_PATH :=
      if production then "/opt/chromedriver"
      else pyPathJoin (pyPathJoin dirname_file "chrome-dev") "chromedriver.exe" }

/-- C8: `get_settings` gives the event priority over the environment exactly
for the ten string-valued keys, and for those only when the event value is
truthy; the integer, boolean and derived-path settings are computed from the
environment (and the module path) alone, so they agree for any two events. -/
theorem get_settings_event_priority (env event : String → Option String)
    (dirname_file : String) :
    ((get_settings env event dirname_file).MODE =
        if pyTruthy (event "MODE") then event "MODE" else env "MODE") ∧
    ((get_settings env event dirname_file).SINGLE_USER_USERNAME =
        if pyTruthy (event "SINGLE_USER_USERNAME") then event "SINGLE_USER_USERNAME"
        else env "SINGLE_USER_USERNAME") ∧
    ((get_settings env event dirname_file).SINGLE_USER_PASSWORD =
        if pyTruthy (event "SINGLE_USER_PASSWORD") then event "SINGLE_USER_PASSWORD"
        else env "SINGLE_USER_PASSWORD") ∧
    ((get_settings env event dirname_file).SINGLE_USER_CSV =
        if pyTruthy (event "SINGLE_USER_CSV") then event "SINGLE_USER_CSV"
        else env "SINGLE_USER_CSV") ∧
    ((get_settings env event dirname_file).MULTI_USER_CSV =
        if pyTruthy (event "MULTI_USER_CSV") then event "MULTI_USER_CSV"
        else env "MULTI_USER_CSV") ∧
    ((get_settings env event dirname_file).AWS_S3_REGION =
        if pyTruthy (event "AWS_S3_REGION") then event "AWS_S3_REGION"
        else env "AWS_S3_REGION") ∧
    ((get_settings env event dirname_file).AWS_S3_BUCKET =
        if pyTruthy (event "AWS_S3_BUCKET") then event "AWS_S3_BUCKET"
        else env "AWS_S3_BUCKET") ∧
    ((get_settings env event dirname_file).AWS_LAMBDA_ARN =
        if pyTruthy (event "AWS_LAMBDA_ARN") then event "AWS_LAMBDA_ARN"
        else env "AWS_LAMBDA_ARN") ∧
    ((get_settings env event dirname_file).AWS_LAMBDA_ECR_IMAGE_URI =
        if pyTruthy (event "AWS_LAMBDA_ECR_IMAGE_URI") then
          event "AWS_LAMBDA_ECR_IMAGE_URI"
        else env "AWS_LAMBDA_ECR_IMAGE_URI") ∧
    ((get_settings env event dirname_file).FILE_SOURCE =
        if pyTruthy (event "FILE_SOURCE") then event "FILE_SOURCE"
        else env "FILE_SOURCE") ∧
    ∀ event' : String → Option String,
      (get_settings env event dirname_file).WEBDRIVER_TIMEOUT_SECONDS =
          (get_settings env event' dirname_file).WEBDRIVER_TIMEOUT_SECONDS ∧
      (get_settings env event dirname_file).WEBDRIVER_UPLOAD_TIMEOUT_SECONDS =
          (get_settings env event' dirname_file).WEBDRIVER_UPLOAD_TIMEOUT_SECONDS ∧
      (get_settings env event dirname_file).VERBOSE =
          (get_settings env event' dirname_file).VERBOSE ∧
      (get_settings env event dirname_file).PRODUCTION =
          (get_settings env event' dirname_file).PRODUCTION ∧
      (get_settings env event dirname_file).TEMP_FOLDER =
          (get_settings env event' dirname_file).TEMP_FOLDER ∧
      (get_settings env event dirname_file).CHROME_PATH =
          (get_settings env event' dirname_file).CHROME_PATH ∧
      (get_settings env event dirname_file).CHROME_DRIVER_PATH =
          (get_settings env event' dirname_file).CHROME_DRIVER_PATH := by
  refine ⟨rfl, rfl, rfl, rfl, rfl, rfl, rfl, rfl, rfl, rfl, ?_⟩
  intro event'
  exact ⟨rfl, rfl, rfl, rfl, rfl, rfl, rfl⟩

/-! ## `BizBuySellAutomator.get_creds_for_csv_file` (src/bizbuysell.py, lines 804-854)

The credentials CSV (downloaded from S3 into a local temp file) is modelled
as the list of its parsed rows, in file order; each row has the "File Name",
"Email" and "Password" columns read by the code. -/

/-- A parsed row of the credentials CSV. -/
structure CredsRow where
  fileName : String
  email : String
  password : String
  deriving DecidableEq, Repr

/-- The credentials dict `{"username": ..., "password": ...}` returned by
`get_creds_for_csv_file`. -/
structure Creds where
  username : String
  password : String
  deriving DecidableEq, Repr

/-- Python `str.strip()`: remove leading and trailing whitespace. -/
def pyStrip (s : String) : String :=
  String.mk
    (((s.data.dropWhile Char.isWhitespace).reverse.dropWhile
        Char.isWhitespace).reverse)

/-- Python substring test `needle in haystack` on the underlying character
lists. -/
def strContainsAux (needle : List Char) : List Char → Bool
  | [] => decide (needle = [])
  | c :: rest => needle.isPrefixOf (c :: rest) || strContainsAux needle rest

/-- Python `needle in haystack` for strings. -/
def pyInStr (needle haystack : String) : Bool :=
  strContainsAux needle.data haystack.data

theorem strContainsAux_iff (needle hay : List Char) :
    strContainsAux needle hay = true ↔ needle <:+: hay := by
  induction hay with
  | nil => simp [strContainsAux]
  | cons c rest ih =>
    simp [strContainsAux, ih, List.infix_cons_iff]

/-- The row filter used by the lookup: the whitespace-trimmed "File Name"
field occurs as a substring of the queried path. -/
def credsRowMatches (csv_file_path : String) (row : CredsRow) : Bool :=
  pyInStr (pyStrip row.fileName) csv_file_path

/-- `BizBuySellAutomator.get_creds_for_csv_file`: scan the credentials rows
in file order and return the first whose trimmed "File Name" is a substring
of `csv_file_path`, else `None`. -/
def get_creds_for_csv_file (rows : List CredsRow) (csv_file_path : String) :
    Option Creds :=
  match rows with
  | [] => none
  | row :: rest =>
    if credsRowMatches csv_file_path row then
      some { username := row.email, password := row.password }
    else get_creds_for_csv_file rest csv_file_path

/-- C7: `get_creds_for_csv_file` returns the username/password of the first
row (in file order) whose trimmed "File Name" is a substring of the queried
path, and `None` exactly when no row's trimmed "File Name" is a substring of
the queried path. -/
theorem get_creds_for_csv_file_spec (rows : List CredsRow)
    (csv_file_path : String) :
    get_creds_for_csv_file rows csv_file_path =
        (rows.find? (credsRowMatches csv_file_path)).map
          (fun row => { username := row.email, password := row.password }) ∧
    (get_creds_for_csv_file rows csv_file_path = none ↔
      ∀ row ∈ rows, ¬ (pyStrip row.fileName).data <:+: csv_file_path.data) := by
  constructor
  · induction rows with
    | nil => rfl
    | cons row rest ih =>
      by_cases h : credsRowMatches csv_file_path row
      · simp [get_creds_for_csv_file, List.find?, h]
      · simp only [get_creds_for_csv_file, h, if_false]
        rw [ih, List.find?]
        simp [h]
  · induction rows with
    | nil => simp [get_creds_for_csv_file]
    | cons row rest ih =>
      by_cases h : credsRowMatches csv_file_path row
      · simp only [get_creds_for_csv_file, h, if_true]
        constructor
        · intro hx; exact absurd hx (by simp)
        · intro hall
          have hm := hall row (List.mem_cons_self row rest)
          rw [credsRowMatches, pyInStr, strContainsAux_iff] at h
          exact absurd h hm
      · have hstep : get_creds_for_csv_file (row :: rest) csv_file_path =
            get_creds_for_csv_file rest csv_file_path := by
          simp [get_creds_for_csv_file, h]
        rw [hstep, ih]
        constructor
        · intro hall row' hrow'
          rcases List.mem_cons.mp hrow' with rfl | hmem
          · rw [credsRowMatches, pyInStr, strContainsAux_iff] at h
            exact h
          · exact hall row' hmem
        · intro hall row' hrow'
          exact hall row' (List.mem_cons_of_mem row hrow')

/-! ## `BizBuySellAutomator.automate_single_user_session` and
`automate_multiple_user_sessions` (src/bizbuysell.py, lines 856-932)

The session is modelled over an explicit local file system (the list of
existing paths), an event trace recording the externally visible actions of
the session, and a `WebOracle` giving the outcome of each Selenium-driven
interaction (`none` = success, `some e` = that interaction raised).  The
download clients always succeed and write their destination file; the
destination paths are the ones hard-coded in the source:
`download_file_from_google_drive(shared_link=csv_path)` with no temporary
filename writes `TEMP_FOLDER/tmp.csv`, and
`download_file_from_s3_bucket(..., temporary_filename="s3tmpfile.csv")`
writes `TEMP_FOLDER/s3tmpfile.csv`. -/

/-- Python exceptions that the modelled code paths can raise. -/
inductive Exc where
  | timeout (msg : String)
  | assertionError
  | unboundLocal
  | fileNotFound (path : String)
  | other (msg : String)
  deriving DecidableEq, Repr

/-- `str(e)` for the modelled exceptions, as embedded in error payloads. -/
def excMessage : Exc → String
  | Exc.timeout m => m
  | Exc.assertionError => ""
  | Exc.unboundLocal => "cannot access local variable csv_file_path"
  | Exc.fileNotFound p => p
  | Exc.other m => m

/-- Python `str(x)` of an optional string (`None` prints as "None"). -/
def pyShowOpt : Option String → String
  | none => "None"
  | some s => s

/-- Externally visible actions of an automation session, in order. -/
inductive Event where
  | login (username password : String)
  | download_gdrive (shared_link dest : String)
  | download_s3 (bucket file_key dest : String)
  | upload (csv_file_path : String)
  | removeFile (path : String)
  | logout
  deriving DecidableEq, Repr

/-- Local file system (paths of existing files) plus the session trace. -/
structure StepState where
  fs : List String
  trace : List Event
  deriving DecidableEq, Repr

/-- Outcomes of the Selenium-driven steps: `none` means the step completed,
`some e` that it raised `e` (in the source these are the `TimeoutException`s
propagated by `login`, `automate_upload` and `logout`). -/
structure WebOracle where
  loginExc : String → String → Option Exc
  uploadExc : String → Option Exc
  logoutExc : String → Option Exc

/-- Writing a file: the path exists afterwards. -/
def fsWrite (p : String) (fs : List String) : List String :=
  if p ∈ fs then fs else fs ++ [p]

/-- `os.remove(p)`: the path no longer exists afterwards. -/
def fsRemove (p : String) (fs : List String) : List String :=
  fs.filter (fun q => q != p)

/-- Destination of the single-user Google Drive download
(`TEMP_FOLDER/tmp.csv`). -/
def gdriveDest (S : Settings) : String := pyPathJoin S.TEMP_FOLDER "tmp.csv"

/-- Destination of the single-user S3 download
(`TEMP_FOLDER/s3tmpfile.csv`). -/
def s3Dest (S : Settings) : String := pyPathJoin S.TEMP_FOLDER "s3tmpfile.csv"

/-- The `FILE_SOURCE` dispatch of `automate_single_user_session` (lines
888-904): Google Drive and S3 download to a temp file; `local` asserts the
path exists and uses it directly; any other value leaves `csv_file_path`
unassigned, raising at its first use. -/
def resolve_csv_source (S : Settings) (csv_path : String) (st : StepState) :
    Except (Exc × StepState) (String × StepState) :=
  if S.FILE_SOURCE = some "google_drive" then
    Except.ok (gdriveDest S,
      { fs := fsWrite (gdriveDest S) st.fs,
        trace := st.trace ++ [Event.download_gdrive csv_path (gdriveDest S)] })
  else if S.FILE_SOURCE = some "local" then
    if csv_path ∈ st.fs then Except.ok (csv_path, st)
    else Except.error (Exc.assertionError, st)
  else if S.FILE_SOURCE = some "s3" then
    Except.ok (s3Dest S,
      { fs := fsWrite (s3Dest S) st.fs,
        trace := st.trace ++
          [Event.download_s3 (pyShowOpt S.AWS_S3_BUCKET) csv_path (s3Dest S)] })
  else Except.error (Exc.unboundLocal, st)

/-- The post-upload cleanup (lines 910-912): if the file came from the cloud,
`os.remove` the temporary download. -/
def remove_temp (S : Settings) (p : String) (st : StepState) :
    Except (Exc × StepState) StepState :=
  if S.FILE_SOURCE = some "google_drive" ∨ S.FILE_SOURCE = some "s3" then
    if p ∈ st.fs then
      Except.ok { fs := fsRemove p st.fs,
                  trace := st.trace ++ [Event.removeFile p] }
    else Except.error (Exc.fileNotFound p, st)
  else Except.ok st

/-- `BizBuySellAutomator.automate_single_user_session`: login, obtain the CSV
according to `FILE_SOURCE`, upload it, remove the temp download if any, and
log out.  An error value is the exception propagated out of the method,
paired with the state at the raise point. -/
def automate_single_user_session (S : Settings) (web : WebOracle)
    (username password csv_path : String) (st : StepState) :
    Except (Exc × StepState) StepState :=
  let st1 : StepState :=
    { st with trace := st.trace ++ [Event.login username password] }
  match web.loginExc username password with
  | some e => Except.error (e, st1)
  | none =>
    match resolve_csv_source S csv_path st1 with
    | Except.error e => Except.error e
    | Except.ok (csv_file_path, st2) =>
      let st3 : StepState :=
        { st2 with trace := st2.trace ++ [Event.upload csv_file_path] }
      match web.uploadExc csv_file_path with
      | some e => Except.error (e, st3)
      | none =>
        match remove_temp S csv_file_path st3 with
        | Except.error e => Except.error e
        | Except.ok st4 =>
          let st5 : StepState :=
            { st4 with trace := st4.trace ++ [Event.logout] }
          match web.logoutExc username with
          | some e => Except.error (e, st5)
          | none => Except.ok st5

/-- A row of the multi-user CSV (columns `username,password,csv_path`). -/
structure UserRow where
  username : String
  password : String
  csv_path : String
  deriving DecidableEq, Repr

/-- `BizBuySellAutomator.automate_multiple_user_sessions`: iterate the parsed
rows of the multi-user CSV in file order, running one full single-user
session per row; an exception from a session propagates and ends the loop. -/
def automate_multiple_user_sessions (S : Settings) (web : WebOracle) :
    List UserRow → StepState → Except (Exc × StepState) StepState
  | [], st => Except.ok st
  | row :: rest, st =>
    match automate_single_user_session S web
        row.username row.password row.csv_path st with
    | Except.error e => Except.error e
    | Except.ok st' => automate_multiple_user_sessions S web rest st'

theorem mem_fsWrite_self (p : String) (fs : List String) :
    p ∈ fsWrite p fs := by
  unfold fsWrite
  by_cases h : p ∈ fs
  · simp [h]
  · simp [h]

theorem not_mem_fsRemove_self (p : String) (fs : List String) :
    p ∉ fsRemove p fs := by
  simp [fsRemove]

/-- Closed form of a successful session when `FILE_SOURCE = "google_drive"`. -/
theorem session_gdrive_ok (S : Settings) (web : WebOracle)
    (u pw path : String) (st : StepState)
    (hfs : S.FILE_SOURCE = some "google_drive")
    (hl : web.loginExc u pw = none)
    (hu : web.uploadExc (gdriveDest S) = none)
    (ho : web.logoutExc u = none) :
    automate_single_user_session S web u pw path st =
      Except.ok
        { fs := fsRemove (gdriveDest S) (fsWrite (gdriveDest S) st.fs),
          trace := st.trace ++
            [Event.login u pw,
             Event.download_gdrive path (gdriveDest S),
             Event.upload (gdriveDest S),
             Event.removeFile (gdriveDest S),
             Event.logout] } := by
  simp [automate_single_user_session, resolve_csv_source, remove_temp,
    hfs, hl, hu, ho, mem_fsWrite_self]

/-- Closed form of a successful session when `FILE_SOURCE = "local"`. -/
theorem session_local_ok (S : Settings) (web : WebOracle)
    (u pw path : String) (st : StepState)
    (hfs : S.FILE_SOURCE = some "local")
    (hl : web.loginExc u pw = none)
    (hx : path ∈ st.fs)
    (hu : web.uploadExc path = none)
    (ho : web.logoutExc u = none) :
    automate_single_user_session S web u pw path st =
      Except.ok
        { fs := st.fs,
          trace := st.trace ++
            [Event.login u pw, Event.upload path, Event.logout] } := by
  simp [automate_single_user_session, resolve_csv_source, remove_temp,
    hfs, hl, hx, hu, ho]

/-- When `FILE_SOURCE = "local"` and the path does not exist, the existence
assertion fails and the session raises `AssertionError` after logging in. -/
theorem session_local_assert_fail (S : Settings) (web : WebOracle)
    (u pw path : String) (st : StepState)
    (hfs : S.FILE_SOURCE = some "local")
    (hl : web.loginExc u pw = none)
    (hx : path ∉ st.fs) :
    automate_single_user_session S web u pw path st =
      Except.error (Exc.assertionError,
        { st with trace := st.trace ++ [Event.login u pw] }) := by
  simp [automate_single_user_session, resolve_csv_source, hfs, hl, hx]

/-- Closed form of a successful session when `FILE_SOURCE = "s3"`. -/
theorem session_s3_ok (S : Settings) (web : WebOracle)
    (u pw path : String) (st : StepState)
    (hfs : S.FILE_SOURCE = some "s3")
    (hl : web.loginExc u pw = none)
    (hu : web.uploadExc (s3Dest S) = none)
    (ho : web.logoutExc u = none) :
    automate_single_user_session S web u pw path st =
      Except.ok
        { fs := fsRemove (s3Dest S) (fsWrite (s3Dest S) st.fs),
          trace := st.trace ++
            [Event.login u pw,
             Event.download_s3 (pyShowOpt S.AWS_S3_BUCKET) path (s3Dest S),
             Event.upload (s3Dest S),
             Event.removeFile (s3Dest S),
             Event.logout] } := by
  simp [automate_single_user_session, resolve_csv_source, remove_temp,
    hfs, hl, hu, ho, mem_fsWrite_self]

/-- Success conditions for the session of one multi-user row: its login and
logout succeed, and the upload of the CSV resolved for the row's `csv_path`
succeeds (for `local` the row's path must also exist on disk `fs0`). -/
def rowOk (S : Settings) (web : WebOracle) (fs0 : List String)
    (row : UserRow) : Prop :=
  web.loginExc row.username row.password = none ∧
  web.logoutExc row.username = none ∧
  ((S.FILE_SOURCE = some "google_drive" ∧
      web.uploadExc (gdriveDest S) = none) ∨
   (S.FILE_SOURCE = some "local" ∧ row.csv_path ∈ fs0 ∧
      web.uploadExc row.csv_path = none) ∨
   (S.FILE_SOURCE = some "s3" ∧ web.uploadExc (s3Dest S) = none))

instance (S : Settings) (web : WebOracle) (fs0 : List String) (row : UserRow) :
    Decidable (rowOk S web fs0 row) := by
  unfold rowOk
  exact inferInstance

/-- The event trace of one full (successful) single-user session for a
multi-user row, as a function of the `FILE_SOURCE` setting. -/
def rowSessionTrace (S : Settings) (row : UserRow) : List Event :=
  if S.FILE_SOURCE = some "google_drive" then
    [Event.login row.username row.password,
     Event.download_gdrive row.csv_path (gdriveDest S),
     Event.upload (gdriveDest S), Event.removeFile (gdriveDest S),
     Event.logout]
  else if S.FILE_SOURCE = some "local" then
    [Event.login row.username row.password, Event.upload row.csv_path,
     Event.logout]
  else
    [Event.login row.username row.password,
     Event.download_s3 (pyShowOpt S.AWS_S3_BUCKET) row.csv_path (s3Dest S),
     Event.upload (s3Dest S), Event.removeFile (s3Dest S), Event.logout]

/-- C3: `automate_multiple_user_sessions` processes the rows of the
multi-user CSV strictly one at a time and in file order: when every row's
session succeeds, the run succeeds and its trace is the in-order
concatenation of one complete login/upload/logout session per row, so each
row's full session precedes the next row's and every row is processed. -/
theorem automate_multiple_user_sessions_sequential (S : Settings)
    (web : WebOracle) :
    ∀ (rows : List UserRow) (st : StepState),
    (∀ row ∈ rows, rowOk S web st.fs row) →
    ∃ st', automate_multiple_user_sessions S web rows st = Except.ok st' ∧
      st'.trace = st.trace ++ (rows.map (rowSessionTrace S)).flatten := by
  intro rows
  induction rows with
  | nil => intro st _; exact ⟨st, rfl, by simp⟩
  | cons row rest ih =>
    intro st hok
    obtain ⟨hl, ho, hsrc⟩ := hok row (List.mem_cons_self row rest)
    rcases hsrc with ⟨hg, hu⟩ | ⟨hlo, hx, hu⟩ | ⟨hs, hu⟩
    · -- FILE_SOURCE = "google_drive"
      have hsess := session_gdrive_ok S web row.username row.password
        row.csv_path st hg hl hu ho
      have hok' : ∀ r ∈ rest,
          rowOk S web (fsRemove (gdriveDest S) (fsWrite (gdriveDest S) st.fs)) r := by
        intro r hr
        obtain ⟨a, b, c⟩ := hok r (List.mem_cons_of_mem row hr)
        refine ⟨a, b, ?_⟩
        rcases c with ⟨c1, c2⟩ | ⟨c1, _, _⟩ | ⟨c1, c2⟩
        · exact Or.inl ⟨c1, c2⟩
        · rw [hg] at c1; simp at c1
        · exact Or.inr (Or.inr ⟨c1, c2⟩)
      obtain ⟨st', hrun, htrace⟩ := ih
        ⟨fsRemove (gdriveDest S) (fsWrite (gdriveDest S) st.fs),
          st.trace ++ [Event.login row.username row.password,
            Event.download_gdrive row.csv_path (gdriveDest S),
            Event.upload (gdriveDest S), Event.removeFile (gdriveDest S),
            Event.logout]⟩ hok'
      refine ⟨st', ?_, ?_⟩
      · simp only [automate_multiple_user_sessions, hsess]
        exact hrun
      · rw [htrace]
        simp [rowSessionTrace, hg]
    · -- FILE_SOURCE = "local"
      have hsess := session_local_ok S web row.username row.password
        row.csv_path st hlo hl hx hu ho
      have hok' : ∀ r ∈ rest, rowOk S web st.fs r := by
        intro r hr
        exact hok r (List.mem_cons_of_mem row hr)
      obtain ⟨st', hrun, htrace⟩ := ih ⟨st.fs,
        st.trace ++ [Event.login row.username row.password,
          Event.upload row.csv_path, Event.logout]⟩ hok'
      refine ⟨st', ?_, ?_⟩
      · simp only [automate_multiple_user_sessions, hsess]
        exact hrun
      · rw [htrace]
        have hng : ¬ S.FILE_SOURCE = some "google_drive" := by
          rw [hlo]; simp
        simp [rowSessionTrace, hlo, hng]
    · -- FILE_SOURCE = "s3"
      have hsess := session_s3_ok S web row.username row.password
        row.csv_path st hs hl hu ho
      have hok' : ∀ r ∈ rest,
          rowOk S web (fsRemove (s3Dest S) (fsWrite (s3Dest S) st.fs)) r := by
        intro r hr
        obtain ⟨a, b, c⟩ := hok r (List.mem_cons_of_mem row hr)
        refine ⟨a, b, ?_⟩
        rcases c with ⟨c1, c2⟩ | ⟨c1, _, _⟩ | ⟨c1, c2⟩
        · exact Or.inl ⟨c1, c2⟩
        · rw [hs] at c1; simp at c1
        · exact Or.inr (Or.inr ⟨c1, c2⟩)
      obtain ⟨st', hrun, htrace⟩ := ih
        ⟨fsRemove (s3Dest S) (fsWrite (s3Dest S) st.fs),
          st.trace ++ [Event.login row.username row.password,
            Event.download_s3 (pyShowOpt S.AWS_S3_BUCKET) row.csv_path (s3Dest S),
            Event.upload (s3Dest S), Event.removeFile (s3Dest S),
            Event.logout]⟩ hok'
      refine ⟨st', ?_, ?_⟩
      · simp only [automate_multiple_user_sessions, hsess]
        exact hrun
      · rw [htrace]
        have hng : ¬ S.FILE_SOURCE = some "google_drive" := by
          rw [hs]; simp
        have hnl : ¬ S.FILE_SOURCE = some "local" := by
          rw [hs]; simp
        simp [rowSessionTrace, hng, hnl]

/-- C4: the single-user session obtains its input CSV according to
`FILE_SOURCE` — `google_drive` downloads from the Google Drive link,
`local` uses the given path directly after asserting it exists on disk
(raising `AssertionError` otherwise), `s3` downloads the given key from the
configured bucket — and in each case the resulting local path is the one
whose upload is performed. -/
theorem automate_single_user_session_file_source (S : Settings)
    (web : WebOracle) (u pw path : String) (st : StepState)
    (hl : web.loginExc u pw = none) (ho : web.logoutExc u = none) :
    (S.FILE_SOURCE = some "google_drive" →
      web.uploadExc (gdriveDest S) = none →
      automate_single_user_session S web u pw path st =
        Except.ok
          { fs := fsRemove (gdriveDest S) (fsWrite (gdriveDest S) st.fs),
            trace := st.trace ++
              [Event.login u pw, Event.download_gdrive path (gdriveDest S),
               Event.upload (gdriveDest S), Event.removeFile (gdriveDest S),
               Event.logout] }) ∧
    (S.FILE_SOURCE = some "local" → path ∈ st.fs →
      web.uploadExc path = none →
      automate_single_user_session S web u pw path st =
        Except.ok
          { fs := st.fs,
            trace := st.trace ++
              [Event.login u pw, Event.upload path, Event.logout] }) ∧
    (S.FILE_SOURCE = some "local" → path ∉ st.fs →
      automate_single_user_session S web u pw path st =
        Except.error (Exc.assertionError,
          { st with trace := st.trace ++ [Event.login u pw] })) ∧
    (S.FILE_SOURCE = some "s3" → web.uploadExc (s3Dest S) = none →
      automate_single_user_session S web u pw path st =
        Except.ok
          { fs := fsRemove (s3Dest S) (fsWrite (s3Dest S) st.fs),
            trace := st.trace ++
              [Event.login u pw,
               Event.download_s3 (pyShowOpt S.AWS_S3_BUCKET) path (s3Dest S),
               Event.upload (s3Dest S), Event.removeFile (s3Dest S),
               Event.logout] }) :=
  ⟨fun hfs hu => session_gdrive_ok S web u pw path st hfs hl hu ho,
   fun hfs hx hu => session_local_ok S web u pw path st hfs hl hx hu ho,
   fun hfs hx => session_local_assert_fail S web u pw path st hfs hl hx,
   fun hfs hu => session_s3_ok S web u pw path st hfs hl hu ho⟩

theorem resolve_csv_source_ok_inv (S : Settings) (csv_path : String)
    (st : StepState) (p : String) (st2 : StepState)
    (h : resolve_csv_source S csv_path st = Except.ok (p, st2)) :
    (S.FILE_SOURCE = some "google_drive" ∧ p = gdriveDest S ∧
       st2.fs = fsWrite (gdriveDest S) st.fs) ∨
    (S.FILE_SOURCE = some "local" ∧ p = csv_path ∧ st2 = st) ∨
    (S.FILE_SOURCE = some "s3" ∧ p = s3Dest S ∧
       st2.fs = fsWrite (s3Dest S) st.fs) := by
  unfold resolve_csv_source at h
  by_cases h1 : S.FILE_SOURCE = some "google_drive"
  · rw [if_pos h1, Except.ok.injEq, Prod.mk.injEq] at h
    obtain ⟨hp, hst⟩ := h
    subst hp; subst hst
    exact Or.inl ⟨h1, rfl, rfl⟩
  · rw [if_neg h1] at h
    by_cases h2 : S.FILE_SOURCE = some "local"
    · rw [if_pos h2] at h
      by_cases h3 : csv_path ∈ st.fs
      · rw [if_pos h3, Except.ok.injEq, Prod.mk.injEq] at h
        obtain ⟨hp, hst⟩ := h
        subst hp; subst hst
        exact Or.inr (Or.inl ⟨h2, rfl, rfl⟩)
      · rw [if_neg h3] at h
        exact absurd h (by simp)
    · rw [if_neg h2] at h
      by_cases h3 : S.FILE_SOURCE = some "s3"
      · rw [if_pos h3, Except.ok.injEq, Prod.mk.injEq] at h
        obtain ⟨hp, hst⟩ := h
        subst hp; subst hst
        exact Or.inr (Or.inr ⟨h3, rfl, rfl⟩)
      · rw [if_neg h3] at h
        exact absurd h (by simp)

theorem remove_temp_ok_inv (S : Settings) (p : String) (st st4 : StepState)
    (h : remove_temp S p st = Except.ok st4) :
    ((S.FILE_SOURCE = some "google_drive" ∨ S.FILE_SOURCE = some "s3") ∧
       st4.fs = fsRemove p st.fs) ∨
    (¬(S.FILE_SOURCE = some "google_drive" ∨ S.FILE_SOURCE = some "s3") ∧
       st4 = st) := by
  unfold remove_temp at h
  by_cases h1 : S.FILE_SOURCE = some "google_drive" ∨ S.FILE_SOURCE = some "s3"
  · rw [if_pos h1] at h
    by_cases h2 : p ∈ st.fs
    · rw [if_pos h2, Except.ok.injEq] at h
      subst h
      exact Or.inl ⟨h1, rfl⟩
    · rw [if_neg h2] at h
      exact absurd h (by simp)
  · rw [if_neg h1, Except.ok.injEq] at h
    subst h
    exact Or.inr ⟨h1, rfl⟩

/-- C10: when a single-user session completes without raising, the temporary
CSV downloaded for a `google_drive` or `s3` source is no longer on the local
file system, and for a `local` source the file system (in particular the
input file) is exactly as before the call. -/
theorem automate_single_user_session_temp_file_cleanup (S : Settings)
    (web : WebOracle) (u pw path : String) (st st' : StepState)
    (hok : automate_single_user_session S web u pw path st = Except.ok st') :
    (S.FILE_SOURCE = some "google_drive" → gdriveDest S ∉ st'.fs) ∧
    (S.FILE_SOURCE = some "s3" → s3Dest S ∉ st'.fs) ∧
    (S.FILE_SOURCE = some "local" → st'.fs = st.fs) := by
  simp only [automate_single_user_session] at hok
  split at hok
  · exact absurd hok (by simp)
  · split at hok
    · exact absurd hok (by simp)
    · rename_i heqn hres p st2 heq
      split at hok
      · exact absurd hok (by simp)
      · split at hok
        · exact absurd hok (by simp)
        · rename_i st4 heq4
          split at hok
          · exact absurd hok (by simp)
          · -- all five steps succeeded
            have hst' : st'.fs = st4.fs := by
              rw [Except.ok.injEq] at hok
              rw [← hok]
            have hinv := resolve_csv_source_ok_inv S path _ p st2 heq
            have hrem := remove_temp_ok_inv S p _ st4 heq4
            rcases hinv with ⟨hg, hp, hfs2⟩ | ⟨hlo, hp, hst2⟩ | ⟨hs, hp, hfs2⟩
            · -- google_drive
              rcases hrem with ⟨_, hfs4⟩ | ⟨hnc, _⟩
              · refine ⟨fun _ => ?_, fun hcon => ?_, fun hcon => ?_⟩
                · rw [hst', hfs4, hp]
                  simp only
                  rw [hfs2]
                  exact not_mem_fsRemove_self _ _
                · rw [hg] at hcon; simp at hcon
                · rw [hg] at hcon; simp at hcon
              · exact absurd (Or.inl hg) hnc
            · -- local
              rcases hrem with ⟨hc, _⟩ | ⟨_, hst4⟩
              · rcases hc with hc | hc
                · rw [hlo] at hc; simp at hc
                · rw [hlo] at hc; simp at hc
              · refine ⟨fun hcon => ?_, fun hcon => ?_, fun _ => ?_⟩
                · rw [hlo] at hcon; simp at hcon
                · rw [hlo] at hcon; simp at hcon
                · rw [hst', hst4]
                  simp only
                  rw [hst2]
            · -- s3
              rcases hrem with ⟨_, hfs4⟩ | ⟨hnc, _⟩
              · refine ⟨fun hcon => ?_, fun _ => ?_, fun hcon => ?_⟩
                · rw [hs] at hcon; simp at hcon
                · rw [hst', hfs4, hp]
                  simp only
                  rw [hfs2]
                  exact not_mem_fsRemove_self _ _
                · rw [hs] at hcon; simp at hcon
              · exact absurd (Or.inr hs) hnc

/-! ## `Driver.run_local` / `Driver.run_lambda` (src/driver.py, lines 34-467)

A Lambda-style HTTP response dict.  The whole `try` body of a mode branch
(automator construction, `init_driver`, downloads, the session(s), `quit`) is
abstracted as one outcome `phase : Except Exc Unit`; the two `except`
handlers (`TimeoutException` and `Exception`) both turn the raised exception
into the same 500 payload, mirrored by `tryExcept`.  `run_local`/`run_lambda`
returning `none` models the Python methods falling off the end (returning
`None`) when `MODE` matches neither branch. -/

/-- A response dict `{"statusCode": ..., "headers": ..., "body": ...}`. -/
structure Response where
  statusCode : Nat
  headers : List (String × String)
  body : List (String × String)
  deriving DecidableEq, Repr

/-- The `{"Content-Type": "application/json"}` headers dict. -/
def contentTypeJson : List (String × String) :=
  [("Content-Type", "application/json")]

/-- The shared shape of the two exception handlers in every mode branch:
a caught exception becomes a 500 response with the exception text and the
driver's IP in the body. -/
def tryExcept (body : Except Exc Response) (ip : String) : Response :=
  match body with
  | Except.ok r => r
  | Except.error e =>
    { statusCode := 500, headers := contentTypeJson,
      body := [("error", excMessage e), ("ip", ip)] }

/-- Success body text of a single-user run. -/
def singleSuccessMsg (S : Settings) : String :=
  "batch upload of " ++ pyShowOpt S.SINGLE_USER_CSV ++
    " complete for single_user " ++ pyShowOpt S.SINGLE_USER_USERNAME

/-- `Driver.run_local` (lines 34-251). -/
def run_local (S : Settings) (ip : String) (phase : Except Exc Unit) :
    Option Response :=
  if S.MODE = some "single_user" then
    if S.SINGLE_USER_PASSWORD ≠ none ∧ S.SINGLE_USER_USERNAME ≠ none ∧
        S.SINGLE_USER_CSV ≠ none then
      some (tryExcept
        (phase.map fun _ =>
          { statusCode := 200, headers := contentTypeJson,
            body := [("success", singleSuccessMsg S), ("ip", ip)] }) ip)
    else
      some { statusCode := 500, headers := contentTypeJson,
             body := [("error",
               "must provide SINGLE_USER_PASSWORD, SINGLE_USER_USERNAME, and SINGLE_USER_CSV as environment variables for single_user mode"),
               ("ip", ip)] }
  else if S.MODE = some "multi_user" then
    if S.MULTI_USER_CSV ≠ none then
      some (tryExcept
        (if S.FILE_SOURCE = some "s3" ∧
            (S.AWS_S3_BUCKET = none ∨ S.AWS_S3_REGION = none) then
          Except.ok
            { statusCode := 500, headers := contentTypeJson,
              body := [("error",
                "must provide AWS_S3_REGION and AWS_S3_BUCKET if FILE_SOURCE=s3"),
                ("ip", ip)] }
        else
          phase.map fun _ =>
            { statusCode := 200, headers := contentTypeJson,
              body := [("success", "batch uploads complete for multiple users")] })
        ip)
    else
      some { statusCode := 500, headers := contentTypeJson,
             body := [("error",
               "must provide MULTI_USER_CSV as environment variable for multi_user mode - csv should include username,password,csv_path as columns"),
               ("ip", ip)] }
  else none

/-- `Driver.run_lambda` (lines 253-467); identical control flow to
`run_local` up to message texts and the multi-user success body also
carrying the IP. -/
def run_lambda (S : Settings) (ip : String) (phase : Except Exc Unit) :
    Option Response :=
  if S.MODE = some "single_user" then
    if S.SINGLE_USER_PASSWORD ≠ none ∧ S.SINGLE_USER_USERNAME ≠ none ∧
        S.SINGLE_USER_CSV ≠ none then
      some (tryExcept
        (phase.map fun _ =>
          { statusCode := 200, headers := contentTypeJson,
            body := [("success", singleSuccessMsg S), ("ip", ip)] }) ip)
    else
      some { statusCode := 500, headers := contentTypeJson,
             body := [("error",
               "must provide SINGLE_USER_PASSWORD, SINGLE_USER_USERNAME, and SINGLE_USER_CSV in body for single_user mode"),
               ("ip", ip)] }
  else if S.MODE = some "multi_user" then
    if S.MULTI_USER_CSV ≠ none then
      some (tryExcept
        (if S.FILE_SOURCE = some "s3" ∧
            (S.AWS_S3_BUCKET = none ∨ S.AWS_S3_REGION = none) then
          Except.ok
            { statusCode := 500, headers := contentTypeJson,
              body := [("error",
                "must provide AWS_S3_REGION and AWS_S3_BUCKET if FILE_SOURCE=s3"),
                ("ip", ip)] }
        else
          phase.map fun _ =>
            { statusCode := 200, headers := contentTypeJson,
              body := [("success", "batch uploads complete for multiple users"),
                       ("ip", ip)] })
        ip)
    else
      some { statusCode := 500, headers := contentTypeJson,
             body := [("error",
               "must provide MULTI_USER_CSV in body for multi_user_mode - csv should include username,password,csv_path as columns"),
               ("ip", ip)] }
  else none

/-- C2: whenever the automation phase of `run_local` or `run_lambda` raises
(any `Exc`, covering `TimeoutException` and every other `Exception`) in
`single_user` or `multi_user` mode, the method does not propagate the
exception: it returns a response with `statusCode` 500, a `Content-Type`
header, and a body containing an "error" entry. -/
theorem run_error_returns_500 (S : Settings) (ip : String) (e : Exc)
    (hreach :
      (S.MODE = some "single_user" ∧ S.SINGLE_USER_PASSWORD ≠ none ∧
        S.SINGLE_USER_USERNAME ≠ none ∧ S.SINGLE_USER_CSV ≠ none) ∨
      (S.MODE = some "multi_user" ∧ S.MULTI_USER_CSV ≠ none)) :
    (∃ r, run_local S ip (Except.error e) = some r ∧ r.statusCode = 500 ∧
      ("Content-Type", "application/json") ∈ r.headers ∧
      ∃ v, ("error", v) ∈ r.body) ∧
    (∃ r, run_lambda S ip (Except.error e) = some r ∧ r.statusCode = 500 ∧
      ("Content-Type", "application/json") ∈ r.headers ∧
      ∃ v, ("error", v) ∈ r.body) := by
  rcases hreach with ⟨hm, hp, hu, hc⟩ | ⟨hm, hcsv⟩
  · constructor
    · have hl : run_local S ip (Except.error e) = some
          { statusCode := 500, headers := contentTypeJson,
            body := [("error", excMessage e), ("ip", ip)] } := by
        rw [run_local, if_pos hm, if_pos ⟨hp, hu, hc⟩]
        rfl
      exact ⟨_, hl, rfl, by simp [contentTypeJson], excMessage e, by simp⟩
    · have hl : run_lambda S ip (Except.error e) = some
          { statusCode := 500, headers := contentTypeJson,
            body := [("error", excMessage e), ("ip", ip)] } := by
        rw [run_lambda, if_pos hm, if_pos ⟨hp, hu, hc⟩]
        rfl
      exact ⟨_, hl, rfl, by simp [contentTypeJson], excMessage e, by simp⟩
  · have hnm : ¬ S.MODE = some "single_user" := by
      rw [hm]; simp
    by_cases hS3 : S.FILE_SOURCE = some "s3" ∧
        (S.AWS_S3_BUCKET = none ∨ S.AWS_S3_REGION = none)
    · constructor
      · have hl : run_local S ip (Except.error e) = some
            { statusCode := 500, headers := contentTypeJson,
              body := [("error",
                "must provide AWS_S3_REGION and AWS_S3_BUCKET if FILE_SOURCE=s3"),
                ("ip", ip)] } := by
          rw [run_local, if_neg hnm, if_pos hm, if_pos hcsv, if_pos hS3]
          rfl
        exact ⟨_, hl, rfl, by simp [contentTypeJson],
          "must provide AWS_S3_REGION and AWS_S3_BUCKET if FILE_SOURCE=s3",
          by simp⟩
      · have hl : run_lambda S ip (Except.error e) = some
            { statusCode := 500, headers := contentTypeJson,
              body := [("error",
                "must provide AWS_S3_REGION and AWS_S3_BUCKET if FILE_SOURCE=s3"),
                ("ip", ip)] } := by
          rw [run_lambda, if_neg hnm, if_pos hm, if_pos hcsv, if_pos hS3]
          rfl
        exact ⟨_, hl, rfl, by simp [contentTypeJson],
          "must provide AWS_S3_REGION and AWS_S3_BUCKET if FILE_SOURCE=s3",
          by simp⟩
    · constructor
      · have hl : run_local S ip (Except.error e) = some
            { statusCode := 500, headers := contentTypeJson,
              body := [("error", excMessage e), ("ip", ip)] } := by
          rw [run_local, if_neg hnm, if_pos hm, if_pos hcsv, if_neg hS3]
          rfl
        exact ⟨_, hl, rfl, by simp [contentTypeJson], excMessage e, by simp⟩
      · have hl : run_lambda S ip (Except.error e) = some
            { statusCode := 500, headers := contentTypeJson,
              body := [("error", excMessage e), ("ip", ip)] } := by
          rw [run_lambda, if_neg hnm, if_pos hm, if_pos hcsv, if_neg hS3]
          rfl
        exact ⟨_, hl, rfl, by simp [contentTypeJson], excMessage e, by simp⟩

/-! ## `main.is_triggered_by_s3` / `main.lambda_handler` and
`Driver.handle_s3_trigger_single_user_mode` (src/main.py lines 39-108,
src/driver.py lines 469-531)

`urllib.parse.unquote_plus` (Python stdlib) is abstracted as the `urlDecode`
parameter; the handler's own code applies it to the raw object key from the
event.  `boto3`'s `update_function_code` call and the other externally
visible actions of the handler are recorded as `HandlerStep`s, in order.
The automation run of the non-S3 path (`driver.run_lambda(event, context)`)
is abstracted as its returned value `runLambdaResult`; `none` models an
invalid `MODE` making `run_lambda` return Python `None`, on which the final
`execution_result | {...}` merge raises `TypeError` (modelled as result
`none`), after `update_function_code` has already been called. -/

/-- One record of an S3 notification event. -/
structure S3Record where
  eventSource : String
  bucketName : String
  objectKey : String
  deriving DecidableEq, Repr

/-- A Lambda event: `records = none` models an event dict without a
"Records" key. -/
structure LambdaEvent where
  records : Option (List S3Record)
  deriving DecidableEq, Repr

/-- `main.is_triggered_by_s3`: true iff the event has a non-empty "Records"
list whose first record has `eventSource == "aws:s3"`. -/
def is_triggered_by_s3 (ev : LambdaEvent) : Bool :=
  match ev.records with
  | some (r :: _) => r.eventSource == "aws:s3"
  | _ => false

/-- Success body text of `handle_s3_trigger_single_user_mode` (note the
missing space between "complete" and "for", as in the source f-strings). -/
def s3TriggerSuccessMsg (key user : String) : String :=
  "batch upload of " ++ key ++ " complete" ++ "for single_user " ++ user

set_option linter.unusedVariables false in
/-- `Driver.handle_s3_trigger_single_user_mode`: look up the credentials for
the updated file key in the credentials CSV, assert they were found, run
the single-user session with those credentials and the key as the CSV path.
Returns the response and the list of `(username, password, csv_path)`
arguments of the `automate_single_user_session` calls made.  `sessionExc`
gives the exception (if any) raised by the automation for given session
arguments (`s3_bucket` is only logged by the source, never used). -/
def handle_s3_trigger_single_user_mode (credsRows : List CredsRow)
    (s3_bucket s3_updated_file_key : String)
    (sessionExc : String -> String -> String -> Option Exc) (ip : String) :
    Response × List (String × String × String) :=
  match get_creds_for_csv_file credsRows s3_updated_file_key with
  | none =>
    ({ statusCode := 500, headers := contentTypeJson,
       body := [("error", excMessage Exc.assertionError), ("ip", ip)] }, [])
  | some creds =>
    match sessionExc creds.username creds.password s3_updated_file_key with
    | some e =>
      ({ statusCode := 500, headers := contentTypeJson,
         body := [("error", excMessage e), ("ip", ip)] },
       [(creds.username, creds.password, s3_updated_file_key)])
    | none =>
      ({ statusCode := 200, headers := contentTypeJson,
         body := [("success",
             s3TriggerSuccessMsg s3_updated_file_key creds.username),
           ("ip", ip)] },
       [(creds.username, creds.password, s3_updated_file_key)])

/-- Externally visible steps of `lambda_handler`, in execution order. -/
inductive HandlerStep where
  | s3Trigger (bucket key : String)
  | sessionRun (username password csv_path : String)
  | runLambdaStep
  | updateFunctionCode (functionName imageUri : String)
  deriving DecidableEq, Repr

/-- What `lambda_handler` returns: a plain response (config-error and
S3-trigger paths) or a response merged with the top-level ip/note keys
(ordinary path). -/
inductive HandlerOutcome where
  | plain (r : Response)
  | merged (r : Response) (extra : List (String × String))
  deriving DecidableEq, Repr

/-- The 500 response for a missing ARN / ECR image URI configuration (this
return has no "headers" key in the source). -/
def configErrorResponse : Response :=
  { statusCode := 500, headers := [],
    body := [("error",
      "AWS_LAMBDA_ARN and AWS_LAMBDA_ECR_IMAGE_URI must be either stored as environment variables or passed in the event payload")] }

/-- The note merged into the result of the ordinary path. -/
def ipRotationNote : String :=
  "wait for at least 30 seconds before invoking again (for IP rotation via update_function_code)"

/-- The ordinary (non-S3-trigger) tail of `lambda_handler`: run
`driver.run_lambda`, call `update_function_code` with the configured ARN and
ECR image URI, then merge the ip/note keys into the result (raising
`TypeError`, i.e. `none`, when `run_lambda` returned `None`). -/
def lambda_handler_normal (S : Settings) (runLambdaResult : Option Response)
    (ipNow : String) : Option HandlerOutcome × List HandlerStep :=
  match runLambdaResult with
  | some res =>
    (some (HandlerOutcome.merged res [("ip", ipNow), ("note", ipRotationNote)]),
     [HandlerStep.runLambdaStep,
      HandlerStep.updateFunctionCode (pyShowOpt S.AWS_LAMBDA_ARN)
        (pyShowOpt S.AWS_LAMBDA_ECR_IMAGE_URI)])
  | none =>
    (none,
     [HandlerStep.runLambdaStep,
      HandlerStep.updateFunctionCode (pyShowOpt S.AWS_LAMBDA_ARN)
        (pyShowOpt S.AWS_LAMBDA_ECR_IMAGE_URI)])

/-- `main.lambda_handler`: check the ARN/ECR configuration, dispatch S3
trigger events to `handle_s3_trigger_single_user_mode` with the URL-decoded
object key (returning without any redeploy), and otherwise run the ordinary
`run_lambda` path followed by the `update_function_code` redeploy. -/
def lambda_handler (S : Settings) (ev : LambdaEvent)
    (urlDecode : String -> String) (credsRows : List CredsRow)
    (sessionExc : String -> String -> String -> Option Exc)
    (runLambdaResult : Option Response) (ipDriver ipNow : String) :
    Option HandlerOutcome × List HandlerStep :=
  if !pyTruthy S.AWS_LAMBDA_ARN || !pyTruthy S.AWS_LAMBDA_ECR_IMAGE_URI then
    (some (HandlerOutcome.plain configErrorResponse), [])
  else
    match ev.records with
    | some (r :: _) =>
      if r.eventSource == "aws:s3" then
        (some (HandlerOutcome.plain
            (handle_s3_trigger_single_user_mode credsRows r.bucketName
              (urlDecode r.objectKey) sessionExc ipDriver).1),
         HandlerStep.s3Trigger r.bucketName (urlDecode r.objectKey) ::
           (handle_s3_trigger_single_user_mode credsRows r.bucketName
              (urlDecode r.objectKey) sessionExc ipDriver).2.map
             (fun c => HandlerStep.sessionRun c.1 c.2.1 c.2.2))
      else lambda_handler_normal S runLambdaResult ipNow
    | _ => lambda_handler_normal S runLambdaResult ipNow

theorem lambda_handler_normal_steps (S : Settings)
    (runLambdaResult : Option Response) (ipNow : String) :
    (lambda_handler_normal S runLambdaResult ipNow).2 =
      [HandlerStep.runLambdaStep,
       HandlerStep.updateFunctionCode (pyShowOpt S.AWS_LAMBDA_ARN)
         (pyShowOpt S.AWS_LAMBDA_ECR_IMAGE_URI)] := by
  cases runLambdaResult <;> rfl

theorem lambda_handler_not_s3 (S : Settings) (ev : LambdaEvent)
    (urlDecode : String -> String) (credsRows : List CredsRow)
    (sessionExc : String -> String -> String -> Option Exc)
    (runLambdaResult : Option Response) (ipDriver ipNow : String)
    (harn : pyTruthy S.AWS_LAMBDA_ARN = true)
    (hecr : pyTruthy S.AWS_LAMBDA_ECR_IMAGE_URI = true)
    (hns3 : is_triggered_by_s3 ev = false) :
    lambda_handler S ev urlDecode credsRows sessionExc runLambdaResult
        ipDriver ipNow =
      lambda_handler_normal S runLambdaResult ipNow := by
  have hcfg : (!pyTruthy S.AWS_LAMBDA_ARN ||
      !pyTruthy S.AWS_LAMBDA_ECR_IMAGE_URI) = false := by
    rw [harn, hecr]; rfl
  rw [is_triggered_by_s3] at hns3
  unfold lambda_handler
  rw [hcfg]
  cases hrec : ev.records with
  | none => simp
  | some rs =>
    cases rs with
    | nil => simp
    | cons r rest =>
      rw [hrec] at hns3
      simp only [] at hns3
      simp at hns3
      simp [hns3]

/-- Count of `update_function_code` calls in a handler step list. -/
def countUpdateCalls (steps : List HandlerStep) : Nat :=
  steps.countP (fun s =>
    match s with
    | HandlerStep.updateFunctionCode _ _ => true
    | _ => false)

/-- C5 (amended): for every invocation that passes the ARN/ECR configuration
check and is not an S3-trigger event, `lambda_handler` performs exactly one
`update_function_code` call, with the configured ARN and ECR image URI, and
it happens after the automation run. -/
theorem lambda_handler_redeploy_once (S : Settings) (ev : LambdaEvent)
    (urlDecode : String -> String) (credsRows : List CredsRow)
    (sessionExc : String -> String -> String -> Option Exc)
    (runLambdaResult : Option Response) (ipDriver ipNow : String)
    (harn : pyTruthy S.AWS_LAMBDA_ARN = true)
    (hecr : pyTruthy S.AWS_LAMBDA_ECR_IMAGE_URI = true)
    (hns3 : is_triggered_by_s3 ev = false) :
    (lambda_handler S ev urlDecode credsRows sessionExc runLambdaResult
        ipDriver ipNow).2 =
      [HandlerStep.runLambdaStep,
       HandlerStep.updateFunctionCode (pyShowOpt S.AWS_LAMBDA_ARN)
         (pyShowOpt S.AWS_LAMBDA_ECR_IMAGE_URI)] := by
  rw [lambda_handler_not_s3 S ev urlDecode credsRows sessionExc
    runLambdaResult ipDriver ipNow harn hecr hns3]
  exact lambda_handler_normal_steps S runLambdaResult ipNow

/-- C6: an event whose first record has `eventSource = "aws:s3"` is handled
by the single-user S3-trigger workflow: the object key is URL-decoded, the
credentials for the decoded key are looked up in the credentials CSV, and
the single-user session runs with exactly those credentials and the decoded
key as CSV path; an event without such a record takes the ordinary
`run_lambda` path instead. -/
theorem lambda_handler_s3_dispatch (S : Settings) (ev : LambdaEvent)
    (urlDecode : String -> String) (credsRows : List CredsRow)
    (sessionExc : String -> String -> String -> Option Exc)
    (runLambdaResult : Option Response) (ipDriver ipNow : String)
    (harn : pyTruthy S.AWS_LAMBDA_ARN = true)
    (hecr : pyTruthy S.AWS_LAMBDA_ECR_IMAGE_URI = true) :
    (∀ r rest, ev.records = some (r :: rest) -> r.eventSource = "aws:s3" ->
      lambda_handler S ev urlDecode credsRows sessionExc runLambdaResult
          ipDriver ipNow =
        (some (HandlerOutcome.plain
            (handle_s3_trigger_single_user_mode credsRows r.bucketName
              (urlDecode r.objectKey) sessionExc ipDriver).1),
         HandlerStep.s3Trigger r.bucketName (urlDecode r.objectKey) ::
           (handle_s3_trigger_single_user_mode credsRows r.bucketName
              (urlDecode r.objectKey) sessionExc ipDriver).2.map
             (fun c => HandlerStep.sessionRun c.1 c.2.1 c.2.2))) ∧
    (∀ bucket key creds,
      get_creds_for_csv_file credsRows key = some creds ->
      (handle_s3_trigger_single_user_mode credsRows bucket key
          sessionExc ipDriver).2 =
        [(creds.username, creds.password, key)]) ∧
    (is_triggered_by_s3 ev = false ->
      lambda_handler S ev urlDecode credsRows sessionExc runLambdaResult
          ipDriver ipNow =
        lambda_handler_normal S runLambdaResult ipNow) := by
  have hcfg : (!pyTruthy S.AWS_LAMBDA_ARN ||
      !pyTruthy S.AWS_LAMBDA_ECR_IMAGE_URI) = false := by
    rw [harn, hecr]; rfl
  refine ⟨?_, ?_, ?_⟩
  · intro r rest hrec hsrc
    unfold lambda_handler
    rw [hcfg, hrec]
    simp [hsrc]
  · intro bucket key creds hcreds
    unfold handle_s3_trigger_single_user_mode
    rw [hcreds]
    cases hse : sessionExc creds.username creds.password key <;> simp [hse]
  · intro hns3
    exact lambda_handler_not_s3 S ev urlDecode credsRows sessionExc
      runLambdaResult ipDriver ipNow harn hecr hns3

/-- C9: with a `MODE` that is neither "single_user" nor "multi_user",
`run_local` and `run_lambda` return `None` (for every possible automation
outcome, i.e. without performing automation), and `lambda_handler`'s attempt
to merge that `None` with the ip/note keys raises instead of returning a
response (result `none`), even though the redeploy call already happened. -/
theorem run_invalid_mode_returns_none (S : Settings) (ev : LambdaEvent)
    (urlDecode : String -> String) (credsRows : List CredsRow)
    (sessionExc : String -> String -> String -> Option Exc)
    (ip ipNow : String) (phase : Except Exc Unit)
    (h1 : S.MODE ≠ some "single_user") (h2 : S.MODE ≠ some "multi_user")
    (harn : pyTruthy S.AWS_LAMBDA_ARN = true)
    (hecr : pyTruthy S.AWS_LAMBDA_ECR_IMAGE_URI = true)
    (hns3 : is_triggered_by_s3 ev = false) :
    run_local S ip phase = none ∧
    run_lambda S ip phase = none ∧
    (lambda_handler S ev urlDecode credsRows sessionExc
        (run_lambda S ip phase) ip ipNow).1 = none := by
  have hl : run_local S ip phase = none := by
    rw [run_local, if_neg h1, if_neg h2]
  have hr : run_lambda S ip phase = none := by
    rw [run_lambda, if_neg h1, if_neg h2]
  refine ⟨hl, hr, ?_⟩
  rw [lambda_handler_not_s3 S ev urlDecode credsRows sessionExc
    (run_lambda S ip phase) ip ipNow harn hecr hns3, hr]
  rfl

/-! ## Concrete instances -/

/-- A web oracle on which every Selenium-driven step succeeds. -/
def webAllOk : WebOracle :=
  { loginExc := fun _ _ => none
    uploadExc := fun _ => none
    logoutExc := fun _ => none }

/-- A fully populated settings dict (production Lambda deployment,
`FILE_SOURCE=local`). -/
def settingsBase : Settings :=
  { MODE := some "single_user"
    SINGLE_USER_USERNAME := some "user@example.com"
    SINGLE_USER_PASSWORD := some "pw"
    SINGLE_USER_CSV := some "/data/in.csv"
    MULTI_USER_CSV := some "/data/multi.csv"
    AWS_S3_REGION := some "us-east-1"
    AWS_S3_BUCKET := some "bkt"
    AWS_LAMBDA_ARN := some "arn:aws:lambda:us-east-1:123:function:bbs"
    AWS_LAMBDA_ECR_IMAGE_URI := some "123.dkr.ecr.us-east-1.amazonaws.com/bbs:latest"
    FILE_SOURCE := some "local"
    WEBDRIVER_TIMEOUT_SECONDS := some 15
    WEBDRIVER_UPLOAD_TIMEOUT_SECONDS := some 30
    VERBOSE := false
    PRODUCTION := true
    TEMP_FOLDER := "/tmp"
    CHROME_PATH := "/opt/chrome/chrome"
    CHROME_DRIVER_PATH := "/opt/chromedriver" }

/-- `settingsBase` with `FILE_SOURCE=google_drive`. -/
def settingsGdrive : Settings :=
  { settingsBase with FILE_SOURCE := some "google_drive" }

/-- `settingsBase` with a `MODE` matching neither driver branch. -/
def settingsBadMode : Settings :=
  { settingsBase with MODE := some "unknown_mode" }

/-- A Lambda event for an S3 upload of `user1.csv`. -/
def s3EventExample : LambdaEvent :=
  { records := some
      [{ eventSource := "aws:s3", bucketName := "bkt",
         objectKey := "user1.csv" }] }

/-- A one-row credentials CSV whose trimmed "File Name" matches
`user1.csv`. -/
def credsRowsExample : List CredsRow :=
  [{ fileName := " user1.csv ", email := "u1@example.com", password := "pw1" }]

/-- Two multi-user rows whose local CSV paths exist on disk. -/
def multiRowsExample : List UserRow :=
  [{ username := "u1", password := "p1", csv_path := "/data/a.csv" },
   { username := "u2", password := "p2", csv_path := "/data/b.csv" }]

/-- C5 counterexample: a concrete invocation that passes the
ARN/ECR configuration check but is an S3-trigger event performs zero
`update_function_code` calls, refuting "redeploys exactly once" for every
invocation passing the check. -/
theorem lambda_handler_s3_trigger_no_redeploy :
    pyTruthy settingsBase.AWS_LAMBDA_ARN = true ∧
    pyTruthy settingsBase.AWS_LAMBDA_ECR_IMAGE_URI = true ∧
    is_triggered_by_s3 s3EventExample = true ∧
    countUpdateCalls
      (lambda_handler settingsBase s3EventExample (fun sk => sk)
        credsRowsExample (fun _ _ _ => none) none "1.2.3.4" "5.6.7.8").2 = 0 := by
  refine ⟨by decide, by decide, by decide, ?_⟩
  decide

/-- Instantiation of `run_error_returns_500` in single-user mode with a
timed-out automation phase. -/
theorem run_error_returns_500_witness :
    (∃ r, run_local settingsBase "1.2.3.4"
        (Except.error (Exc.timeout "timed out")) = some r ∧
      r.statusCode = 500 ∧ ("Content-Type", "application/json") ∈ r.headers ∧
      ∃ v, ("error", v) ∈ r.body) ∧
    (∃ r, run_lambda settingsBase "1.2.3.4"
        (Except.error (Exc.timeout "timed out")) = some r ∧
      r.statusCode = 500 ∧ ("Content-Type", "application/json") ∈ r.headers ∧
      ∃ v, ("error", v) ∈ r.body) :=
  run_error_returns_500 settingsBase "1.2.3.4" (Exc.timeout "timed out")
    (Or.inl ⟨rfl, by decide, by decide, by decide⟩)

/-- Instantiation of `automate_multiple_user_sessions_sequential` on two
local-source rows: both sessions run, in order. -/
theorem automate_multiple_user_sessions_sequential_witness :
    ∃ st', automate_multiple_user_sessions settingsBase webAllOk
        multiRowsExample
        { fs := ["/data/a.csv", "/data/b.csv"], trace := [] } =
          Except.ok st' ∧
      st'.trace = [] ++
        ((multiRowsExample.map (rowSessionTrace settingsBase)).flatten) :=
  automate_multiple_user_sessions_sequential settingsBase webAllOk
    multiRowsExample { fs := ["/data/a.csv", "/data/b.csv"], trace := [] }
    (by decide)

/-- Instantiation of `automate_single_user_session_file_source` with
`FILE_SOURCE=google_drive`: the session downloads the link to the temp file
and uploads that temp file. -/
theorem automate_single_user_session_file_source_witness :
    automate_single_user_session settingsGdrive webAllOk "u" "p"
        "https://drive.google.com/file/d/abc/view" { fs := [], trace := [] } =
      Except.ok
        { fs := fsRemove (gdriveDest settingsGdrive)
            (fsWrite (gdriveDest settingsGdrive) []),
          trace := [] ++
            [Event.login "u" "p",
             Event.download_gdrive "https://drive.google.com/file/d/abc/view"
               (gdriveDest settingsGdrive),
             Event.upload (gdriveDest settingsGdrive),
             Event.removeFile (gdriveDest settingsGdrive),
             Event.logout] } :=
  (automate_single_user_session_file_source settingsGdrive webAllOk "u" "p"
      "https://drive.google.com/file/d/abc/view" { fs := [], trace := [] }
      rfl rfl).1 rfl rfl

/-- Instantiation of `lambda_handler_redeploy_once` on an event without
S3 records. -/
theorem lambda_handler_redeploy_once_witness :
    (lambda_handler settingsBase { records := none } (fun sk => sk) []
        (fun _ _ _ => none) none "1.2.3.4" "5.6.7.8").2 =
      [HandlerStep.runLambdaStep,
       HandlerStep.updateFunctionCode (pyShowOpt settingsBase.AWS_LAMBDA_ARN)
         (pyShowOpt settingsBase.AWS_LAMBDA_ECR_IMAGE_URI)] :=
  lambda_handler_redeploy_once settingsBase { records := none } (fun sk => sk)
    [] (fun _ _ _ => none) none "1.2.3.4" "5.6.7.8" (by decide) (by decide) rfl

/-- Instantiation of `lambda_handler_s3_dispatch` on the concrete S3 upload
event. -/
theorem lambda_handler_s3_dispatch_witness :
    lambda_handler settingsBase s3EventExample (fun sk => sk)
        credsRowsExample (fun _ _ _ => none) none "1.2.3.4" "5.6.7.8" =
      (some (HandlerOutcome.plain
          (handle_s3_trigger_single_user_mode credsRowsExample "bkt"
            "user1.csv" (fun _ _ _ => none) "1.2.3.4").1),
       HandlerStep.s3Trigger "bkt" "user1.csv" ::
         (handle_s3_trigger_single_user_mode credsRowsExample "bkt"
            "user1.csv" (fun _ _ _ => none) "1.2.3.4").2.map
           (fun c => HandlerStep.sessionRun c.1 c.2.1 c.2.2)) :=
  (lambda_handler_s3_dispatch settingsBase s3EventExample (fun sk => sk)
      credsRowsExample (fun _ _ _ => none) none "1.2.3.4" "5.6.7.8"
      (by decide) (by decide)).1
    { eventSource := "aws:s3", bucketName := "bkt", objectKey := "user1.csv" }
    [] rfl rfl

/-- Instantiation of `run_invalid_mode_returns_none` with
`MODE=unknown_mode`. -/
theorem run_invalid_mode_returns_none_witness :
    run_local settingsBadMode "1.2.3.4" (Except.ok ()) = none ∧
    run_lambda settingsBadMode "1.2.3.4" (Except.ok ()) = none ∧
    (lambda_handler settingsBadMode { records := none } (fun sk => sk) []
        (fun _ _ _ => none)
        (run_lambda settingsBadMode "1.2.3.4" (Except.ok ()))
        "1.2.3.4" "5.6.7.8").1 = none :=
  run_invalid_mode_returns_none settingsBadMode { records := none }
    (fun sk => sk) [] (fun _ _ _ => none) "1.2.3.4" "5.6.7.8" (Except.ok ())
    (by decide) (by decide) (by decide) (by decide) rfl

/-- Instantiation of `automate_single_user_session_temp_file_cleanup` on a
successful Google Drive session: the downloaded `/tmp/tmp.csv` is gone from
the final file system. -/
theorem automate_single_user_session_temp_file_cleanup_witness :
    (settingsGdrive.FILE_SOURCE = some "google_drive" →
      gdriveDest settingsGdrive ∉ ([] : List String)) ∧
    (settingsGdrive.FILE_SOURCE = some "s3" →
      s3Dest settingsGdrive ∉ ([] : List String)) ∧
    (settingsGdrive.FILE_SOURCE = some "local" →
      ([] : List String) = ([] : List String)) :=
  automate_single_user_session_temp_file_cleanup settingsGdrive webAllOk
    "u" "p" "https://drive.google.com/file/d/abc/view"
    { fs := [], trace := [] }
    { fs := [],
      trace := [Event.login "u" "p",
        Event.download_gdrive "https://drive.google.com/file/d/abc/view"
          "/tmp/tmp.csv",
        Event.upload "/tmp/tmp.csv", Event.removeFile "/tmp/tmp.csv",
        Event.logout] }
    (by rfl)

end BizBuySell
